import Mathlib

/-!
Shallow embedding of the SolarTrack family image pool
(`apps/api/app/routes/family_images.py`) and the collaborators it uses
(`apps/api/app/routes/upload.py`, `apps/api/app/config.py`,
`apps/api/app/models/models.py`).

Modelling conventions:
* Timestamps are integers (`Int`); `datetime.utcnow()` at the start of a
  request is an explicit `now` argument, and the configured
  `FAMILY_CLAIM_TIMEOUT_MINUTES` lease duration an explicit argument too.
* The database row for a given image id is an `Option FamilyImage`
  (`none` when no row with that id exists); each route returns the HTTP
  response together with the row state after the call, so unchanged-state
  claims are statable.  SQL `NULL` columns are `Option` fields, and a SQL
  comparison against `NULL` (e.g. `claimed_at < threshold` with
  `claimed_at IS NULL`) does not match, mirrored by matching on the
  `Option`.
* External collaborators of `process` (rate limiter, file storage, AI
  provider) are modelled by a `ProcessEnv` record saying how each call
  behaves; extracted readings are opaque strings.
-/

namespace SolarTrack

/-- Task statuses used by the family image pool routes
(`pending`, `claimed`, `processing`, `processed`, `error`). -/
inductive ImageStatus
  | pending
  | claimed
  | processing
  | processed
  | error
  deriving DecidableEq, Repr

/-- The `FamilyImage` row (`models.py`), restricted to the columns the
pool routes read or write. -/
structure FamilyImage where
  id : String
  family_id : String
  uploader_id : String
  filename : String
  storage_path : String
  mime_type : String
  file_size : Nat
  status : ImageStatus
  claimed_by : Option String
  claimed_at : Option Int
  processed_by : Option String
  processed_at : Option Int
  readings_count : Option Nat
  error_message : Option String
  deriving DecidableEq, Repr

/-- Outcomes of the `ProcessingJob` audit row (`models.py`):
`running`, `completed`, `failed`. -/
inductive JobStatus
  | running
  | completed
  | failed
  deriving DecidableEq, Repr

/-- One extracted reading; its contents are opaque to the pool logic. -/
abbrev Reading := String

/-- The `ProcessingJob` audit row (`models.py`), restricted to the
columns `process_image` writes. -/
structure ProcessingJob where
  user_id : String
  provider : String
  status : JobStatus
  result : Option (List Reading)
  error_text : Option String
  started_at : Option Int
  completed_at : Option Int
  deriving DecidableEq, Repr

/-! ## claim (`claim_image`, family_images.py lines 221-280) -/

/-- HTTP error responses of the claim route: 404 "Image not found",
400 "Image has already been processed", 409 "Image is currently claimed
by another user". -/
inductive ClaimError
  | notFound
  | alreadyProcessed
  | conflictClaimed
  deriving DecidableEq, Repr

/-- The SQL predicate `FamilyImage.claimed_at < timeout_threshold`:
false when `claimed_at IS NULL`. -/
def lease_expired (claimed_at : Option Int) (timeout_threshold : Int) : Bool :=
  match claimed_at with
  | some t => t < timeout_threshold
  | none => false

/-- The claimability filter of the locking query (lines 239-245):
`status = pending OR (status = claimed AND claimed_at < timeout_threshold)`. -/
def claimable (img : FamilyImage) (timeout_threshold : Int) : Bool :=
  img.status == .pending ||
    (img.status == .claimed && lease_expired img.claimed_at timeout_threshold)

/-- `claim_image` (lines 221-280).  `timeout_threshold` is
`now - FAMILY_CLAIM_TIMEOUT_MINUTES` (line 233); the locking query also
filters on the caller's `family_id`.  When the locking query hits, the
row is claimed for the caller; otherwise the fallback query (lines
250-253) distinguishes a missing row (404), a processed row (400) and
everything else (409).  Returns the response and the row after the call. -/
def claim_image (row : Option FamilyImage) (family_id member_id : String)
    (now lease_timeout : Int) :
    Except ClaimError FamilyImage × Option FamilyImage :=
  let timeout_threshold := now - lease_timeout
  match row with
  | none => (.error .notFound, none)
  | some img =>
    if img.family_id == family_id && claimable img timeout_threshold then
      let img2 : FamilyImage :=
        { img with status := .claimed, claimed_by := some member_id,
                   claimed_at := some now }
      (.ok img2, some img2)
    else if !(img.family_id == family_id) then
      (.error .notFound, some img)
    else if img.status == .processed then
      (.error .alreadyProcessed, some img)
    else
      (.error .conflictClaimed, some img)

/-! ## release (`release_image`, family_images.py lines 283-312) -/

/-- The release route only ever fails with
404 "Image not found or not claimed by you". -/
inductive ReleaseError
  | notFound
  deriving DecidableEq, Repr

/-- `release_image` (lines 283-312): the query requires the caller's
family, `claimed_by = member_id` and `status IN (claimed, processing)`;
on a hit the row returns to `pending` with `claimed_by` and `claimed_at`
cleared, otherwise 404 and no change. -/
def release_image (row : Option FamilyImage) (family_id member_id : String) :
    Except ReleaseError Unit × Option FamilyImage :=
  match row with
  | none => (.error .notFound, none)
  | some img =>
    if img.family_id == family_id && img.claimed_by == some member_id &&
        (img.status == .claimed || img.status == .processing) then
      let img2 : FamilyImage :=
        { img with status := .pending, claimed_by := none, claimed_at := none }
      (.ok (), some img2)
    else
      (.error .notFound, some img)

/-! ## process (`process_image`, family_images.py lines 353-471) -/

/-- Behaviour of the AI provider call `provider.extract_readings`:
it returns a result with `success = True` and a list of readings, a
result with `success = False` and an error string, or raises an
exception caught by the generic handler (lines 458-471). -/
inductive ExtractorBehavior
  | success (readings : List Reading)
  | failure (err : String)
  | raiseExc (msg : String)
  deriving DecidableEq, Repr

/-- Behaviour of the collaborators during one `process_image` call:
whether `check_and_increment_usage` raises HTTP 429 (upload.py lines
30-62), whether `FileStorageService.read_image` finds the blob (a
missing blob raises `FileNotFoundError`), the provider name, the
extractor's behaviour, and the `datetime.utcnow()` timestamp used for
the job/terminal fields. -/
structure ProcessEnv where
  rate_limited : Bool
  blob_exists : Bool
  provider_name : String
  extractor : ExtractorBehavior
  now : Int
  deriving DecidableEq, Repr

/-- HTTP error responses of the process route: 404 "Image not found, not
claimed by you, or already processed", 429 from the rate limiter,
404 "Image file not found on disk", 422 with the extractor's error, and
500 "Processing failed". -/
inductive ProcessError
  | notFound
  | rateLimited
  | blobMissing
  | unprocessable (err : String)
  | internalError (msg : String)
  deriving DecidableEq, Repr

/-- The 200 response body of the process route (lines 440-446). -/
structure ProcessOk where
  readings : List Reading
  provider : String
  deriving DecidableEq, Repr

/-- State after a `process_image` call: the HTTP response, the image row
after the call, and the `ProcessingJob` audit rows created during the
call. -/
structure ProcessOutcome where
  response : Except ProcessError ProcessOk
  row : Option FamilyImage
  jobs : List ProcessingJob
  deriving Repr

/-- `process_image` (lines 353-471), step by step:
the guard query requires the caller's family, `claimed_by = member_id`
and `status = claimed` (404 otherwise); the row is committed as
`processing`; `check_and_increment_usage` may raise 429 (outside the
`try`); a missing blob raises `FileNotFoundError`, caught into
`status = error` with no job row (the job is created only after the blob
read); after the job row is created `running`, the extractor either
fails (row `error` + job `failed` + 422), succeeds (row `processed` +
job `completed` + 200) or raises (row `error` + job `failed` + 500).
`member_id` is `member.user_id` and `user_id` is
`current_user.user_id`. -/
def process_image (row : Option FamilyImage) (family_id member_id user_id : String)
    (env : ProcessEnv) : ProcessOutcome :=
  match row with
  | none => ⟨.error .notFound, none, []⟩
  | some img =>
    if img.family_id == family_id && img.claimed_by == some member_id &&
        img.status == .claimed then
      let img1 : FamilyImage := { img with status := .processing }
      if env.rate_limited then
        ⟨.error .rateLimited, some img1, []⟩
      else if !env.blob_exists then
        let img2 : FamilyImage :=
          { img1 with status := .error,
                      error_message := some "Image file not found on disk" }
        ⟨.error .blobMissing, some img2, []⟩
      else
        let job0 : ProcessingJob :=
          { user_id := user_id, provider := env.provider_name,
            status := .running, result := none, error_text := none,
            started_at := some env.now, completed_at := none }
        match env.extractor with
        | .failure err =>
          let img2 : FamilyImage :=
            { img1 with status := .error, error_message := some err,
                        processed_by := some member_id,
                        processed_at := some env.now }
          let job1 : ProcessingJob :=
            { job0 with status := .failed, completed_at := some env.now,
                        error_text := some err }
          ⟨.error (.unprocessable err), some img2, [job1]⟩
        | .success readings =>
          let img2 : FamilyImage :=
            { img1 with status := .processed,
                        processed_by := some member_id,
                        processed_at := some env.now,
                        readings_count := some readings.length }
          let job1 : ProcessingJob :=
            { job0 with status := .completed, completed_at := some env.now,
                        result := some readings }
          ⟨.ok ⟨readings, env.provider_name⟩, some img2, [job1]⟩
        | .raiseExc msg =>
          let img2 : FamilyImage :=
            { img1 with status := .error, error_message := some msg }
          let job1 : ProcessingJob :=
            { job0 with status := .failed, completed_at := some env.now,
                        error_text := some msg }
          ⟨.error (.internalError msg), some img2, [job1]⟩
    else
      ⟨.error .notFound, some img, []⟩

/-! ## upload (`upload_images`, family_images.py lines 98-170) -/

/-- `ALLOWED_TYPES` (upload.py lines 19-24). -/
def ALLOWED_TYPES : List String :=
  ["image/jpeg", "image/png", "image/webp", "image/heic"]

/-- `MAX_FILE_SIZE` (upload.py line 27): 10 MiB. -/
def MAX_FILE_SIZE : Nat := 10 * 1024 * 1024

/-- One file of an upload batch: its metadata, the uuid
`generate_uuid_hex()` would assign to it, whether
`FileStorageService.save_image` succeeds for it, and the storage path
the save returns. -/
structure UploadItem where
  filename : String
  content_type : String
  size : Nat
  id : String
  save_ok : Bool
  saved_path : String
  deriving DecidableEq, Repr

/-- The batch is rejected with HTTP 400 "Too many pending images" when
over the per-group ceiling. -/
inductive UploadError
  | tooManyPending
  deriving DecidableEq, Repr

/-- Whether a row counts against the pool ceiling:
`status IN (pending, claimed, processing)` (lines 109-112). -/
def is_outstanding (img : FamilyImage) : Bool :=
  img.status == .pending || img.status == .claimed || img.status == .processing

/-- `pending_count` of the upload route (lines 109-112): rows of the
caller's family whose status is outstanding. -/
def outstanding_count (db : List FamilyImage) (family_id : String) : Nat :=
  (db.filter (fun img => img.family_id == family_id && is_outstanding img)).length

/-- The per-file body of the upload loop (lines 123-162): skip files
whose content type is not allowed or whose data exceeds
`MAX_FILE_SIZE`; build the row, save the blob, and skip the file when
the save raises; only a file whose save succeeded yields a `pending`
row carrying the saved path. -/
def admit_item (family_id uploader_id : String) (f : UploadItem) :
    Option FamilyImage :=
  if !(ALLOWED_TYPES.contains f.content_type) then none
  else if f.size > MAX_FILE_SIZE then none
  else if !f.save_ok then none
  else some
    { id := f.id, family_id := family_id, uploader_id := uploader_id,
      filename := f.filename, storage_path := f.saved_path,
      mime_type := f.content_type, file_size := f.size, status := .pending,
      claimed_by := none, claimed_at := none, processed_by := none,
      processed_at := none, readings_count := none, error_message := none }

/-- `upload_images` (lines 98-170): the whole batch is rejected when
`pending_count + len(files) > FAMILY_MAX_PENDING_IMAGES`
(`max_pending`); otherwise each file is admitted or skipped by
`admit_item` and the surviving rows are committed.  Returns the response
(the created rows) and the table after the call. -/
def upload_images (db : List FamilyImage) (family_id uploader_id : String)
    (files : List UploadItem) (max_pending : Nat) :
    Except UploadError (List FamilyImage) × List FamilyImage :=
  if outstanding_count db family_id + files.length > max_pending then
    (.error .tooManyPending, db)
  else
    let created := files.filterMap (admit_item family_id uploader_id)
    (.ok created, db ++ created)

/-! ## Concrete rows and environments used by witnesses -/

/-- A freshly uploaded `pending` row. -/
def imgPending : FamilyImage :=
  { id := "img1", family_id := "fam", uploader_id := "u0",
    filename := "a.jpg", storage_path := "/data/fam/img1",
    mime_type := "image/jpeg", file_size := 5, status := .pending,
    claimed_by := none, claimed_at := none, processed_by := none,
    processed_at := none, readings_count := none, error_message := none }

/-- A row claimed by `alice` at time 0. -/
def imgClaimedAt0 : FamilyImage :=
  { imgPending with status := .claimed, claimed_by := some "alice",
                    claimed_at := some 0 }

/-- A row claimed by `bob` at time 0. -/
def imgClaimedBob : FamilyImage :=
  { imgPending with status := .claimed, claimed_by := some "bob",
                    claimed_at := some 0 }

/-- A terminally processed row. -/
def imgProcessed : FamilyImage :=
  { imgPending with status := .processed, processed_by := some "alice",
                    processed_at := some 50, readings_count := some 4 }

/-- A terminally errored row. -/
def imgError : FamilyImage :=
  { imgPending with status := .error, error_message := some "boom" }

/-- Collaborators all behaving: no rate limit, blob present, extractor
returning one reading. -/
def envOk : ProcessEnv :=
  { rate_limited := false, blob_exists := true, provider_name := "mock",
    extractor := .success ["reading1"], now := 100 }

/-- Collaborators with the rate limiter denying the call. -/
def envRateLimited : ProcessEnv :=
  { envOk with rate_limited := true }

/-- Collaborators with the blob missing from storage. -/
def envBlobMissing : ProcessEnv :=
  { envOk with blob_exists := false }

/-! ## Helper lemmas -/

theorem lease_expired_iff (o : Option Int) (th : Int) :
    lease_expired o th = true ↔ ∃ t, o = some t ∧ t < th := by
  cases o <;> simp [lease_expired]

theorem claimable_iff (img : FamilyImage) (th : Int) :
    claimable img th = true ↔
      img.status = .pending ∨
        (img.status = .claimed ∧ ∃ t0, img.claimed_at = some t0 ∧ t0 < th) := by
  simp [claimable, lease_expired_iff, Bool.or_eq_true, Bool.and_eq_true,
    beq_iff_eq]

theorem claim_cond_iff (img : FamilyImage) (fid : String) (now L : Int) :
    (img.family_id == fid && claimable img (now - L)) = true ↔
      img.family_id = fid ∧
        (img.status = .pending ∨
          (img.status = .claimed ∧ ∃ t0, img.claimed_at = some t0 ∧
            now - t0 > L)) := by
  rw [Bool.and_eq_true, beq_iff_eq, claimable_iff]
  constructor
  · rintro ⟨h1, h2 | ⟨hc, t0, hat, hlt⟩⟩
    · exact ⟨h1, Or.inl h2⟩
    · exact ⟨h1, Or.inr ⟨hc, t0, hat, by omega⟩⟩
  · rintro ⟨h1, h2 | ⟨hc, t0, hat, hlt⟩⟩
    · exact ⟨h1, Or.inl h2⟩
    · exact ⟨h1, Or.inr ⟨hc, t0, hat, by omega⟩⟩

theorem claim_image_pos (img : FamilyImage) (fid mid : String) (now L : Int)
    (h : (img.family_id == fid && claimable img (now - L)) = true) :
    claim_image (some img) fid mid now L =
      (.ok { img with status := .claimed, claimed_by := some mid,
                      claimed_at := some now },
       some { img with status := .claimed, claimed_by := some mid,
                       claimed_at := some now }) := by
  simp [claim_image, h]

theorem claim_image_neg (img : FamilyImage) (fid mid : String) (now L : Int)
    (h : (img.family_id == fid && claimable img (now - L)) = false) :
    (∃ e, (claim_image (some img) fid mid now L).1 = .error e) ∧
      (claim_image (some img) fid mid now L).2 = some img := by
  simp only [claim_image, h, Bool.false_eq_true, if_false]
  split
  · exact ⟨⟨.notFound, rfl⟩, rfl⟩
  · split
    · exact ⟨⟨.alreadyProcessed, rfl⟩, rfl⟩
    · exact ⟨⟨.conflictClaimed, rfl⟩, rfl⟩

theorem claim_image_ok_iff (row : Option FamilyImage) (fid mid : String)
    (now L : Int) :
    (∃ img2, (claim_image row fid mid now L).1 = .ok img2) ↔
      ∃ img, row = some img ∧ img.family_id = fid ∧
        (img.status = .pending ∨
          (img.status = .claimed ∧ ∃ t0, img.claimed_at = some t0 ∧
            now - t0 > L)) := by
  cases row with
  | none => simp [claim_image]
  | some img =>
    by_cases hc : (img.family_id == fid && claimable img (now - L)) = true
    · rw [claim_image_pos img fid mid now L hc]
      have h2 := (claim_cond_iff img fid now L).mp hc
      constructor
      · intro _
        exact ⟨img, rfl, h2.1, h2.2⟩
      · intro _
        exact ⟨_, rfl⟩
    · have hcf := Bool.eq_false_iff.mpr hc
      obtain ⟨⟨e, he⟩, _⟩ := claim_image_neg img fid mid now L hcf
      constructor
      · rintro ⟨img2, h2⟩
        rw [he] at h2
        cases h2
      · rintro ⟨img0, h0, hfam, hdisj⟩
        cases h0
        exact absurd ((claim_cond_iff img fid now L).mpr ⟨hfam, hdisj⟩) hc

/-- A row still within alice's lease window at time 100
(claimed at 100 with timeout 30). -/
def imgClaimedFresh : FamilyImage :=
  { imgPending with status := .claimed, claimed_by := some "alice",
                    claimed_at := some 100 }

/-! ## Claims -/

/-- C1: for every task and member, a claim call succeeds exactly when
the task exists in the caller's group and either its status is pending,
or its status is claimed and the time elapsed since `lease_started_at`
(`claimed_at`) exceeds the configured lease timeout; on success the
task's status becomes claimed, its holder (`claimed_by`) becomes the
caller and `claimed_at` becomes the current time. -/
theorem C1_claim_semantics (row : Option FamilyImage) (fid mid : String)
    (now L : Int) :
    ((∃ img2, (claim_image row fid mid now L).1 = .ok img2) ↔
      ∃ img, row = some img ∧ img.family_id = fid ∧
        (img.status = .pending ∨
          (img.status = .claimed ∧ ∃ t0, img.claimed_at = some t0 ∧
            now - t0 > L))) ∧
    ∀ img2, (claim_image row fid mid now L).1 = .ok img2 →
      img2.status = .claimed ∧ img2.claimed_by = some mid ∧
        img2.claimed_at = some now ∧
        (claim_image row fid mid now L).2 = some img2 := by
  refine ⟨claim_image_ok_iff row fid mid now L, ?_⟩
  intro img2 h2
  cases row with
  | none => simp [claim_image] at h2
  | some img =>
    by_cases hc : (img.family_id == fid && claimable img (now - L)) = true
    · rw [claim_image_pos img fid mid now L hc] at h2
      have h3 : Except.ok (ε := ClaimError)
          { img with status := .claimed, claimed_by := some mid,
                     claimed_at := some now } = .ok img2 := h2
      injection h3 with h4
      subst h4
      rw [claim_image_pos img fid mid now L hc]
      exact ⟨rfl, rfl, rfl, rfl⟩
    · obtain ⟨⟨e, he⟩, _⟩ :=
        claim_image_neg img fid mid now L (Bool.eq_false_iff.mpr hc)
      rw [he] at h2
      cases h2

/-- Witness for C1: claiming a concrete pending row succeeds. -/
theorem C1_witness :
    ∃ img2, (claim_image (some imgPending) "fam" "alice" 100 30).1 =
      .ok img2 :=
  (C1_claim_semantics (some imgPending) "fam" "alice" 100 30).1.mpr
    ⟨imgPending, rfl, rfl, Or.inl rfl⟩

/-- C2 (amended): a task claimed at `t0` with lease duration `L` is
claimable by another member exactly at times `t > t0 + L` (strict); for
every `t ≤ t0 + L` — in particular at exactly `t = t0 + L` — the claim
fails with the held-by-another conflict. -/
theorem C2_expiry_boundary (img : FamilyImage) (fid mid : String)
    (t0 t L : Int) (hfam : img.family_id = fid)
    (hst : img.status = .claimed) (hat : img.claimed_at = some t0) :
    ((∃ img2, (claim_image (some img) fid mid t L).1 = .ok img2) ↔
      t > t0 + L) ∧
    (t ≤ t0 + L →
      (claim_image (some img) fid mid t L).1 = .error .conflictClaimed) := by
  constructor
  · rw [claim_image_ok_iff]
    constructor
    · rintro ⟨img0, h0, _, hdisj⟩
      cases h0
      rcases hdisj with hp | ⟨_, t1, hat1, hgt⟩
      · rw [hst] at hp; simp at hp
      · rw [hat] at hat1
        injection hat1 with h1
        omega
    · intro hgt
      exact ⟨img, rfl, hfam, Or.inr ⟨hst, t0, hat, by omega⟩⟩
  · intro hle
    have hcf : (img.family_id == fid && claimable img (t - L)) = false := by
      rw [Bool.eq_false_iff]
      intro hc
      rcases ((claim_cond_iff img fid t L).mp hc).2 with hp | ⟨_, t1, hat1, hgt⟩
      · rw [hst] at hp; simp at hp
      · rw [hat] at hat1
        injection hat1 with h1
        omega
    simp only [claim_image, hcf, Bool.false_eq_true, if_false]
    rw [show (img.family_id == fid) = true from beq_iff_eq.mpr hfam]
    simp [hst]

/-- C2 counterexample: a task claimed by alice at time 0 with lease
duration 30 is NOT claimable by bob at exactly `t = t0 + L = 30` — the
claim fails with the held-by-another conflict, where the claim states
that a claim at exactly `t0 + L` succeeds. -/
theorem C2_counterexample :
    imgClaimedAt0.claimed_at = some 0 ∧
      imgClaimedAt0.claimed_by = some "alice" ∧
      (claim_image (some imgClaimedAt0) "fam" "bob" 30 30).1 =
        .error .conflictClaimed :=
  ⟨rfl, rfl, rfl⟩

/-- Witness for C2 (amended) one step past the boundary: at `t = 31`
the reclaim by bob succeeds. -/
theorem C2_witness :
    ((∃ img2, (claim_image (some imgClaimedAt0) "fam" "bob" 31 30).1 =
        .ok img2) ↔ (31 : Int) > 0 + 30) ∧
    ((31 : Int) ≤ 0 + 30 →
      (claim_image (some imgClaimedAt0) "fam" "bob" 31 30).1 =
        .error .conflictClaimed) :=
  C2_expiry_boundary imgClaimedAt0 "fam" "bob" 0 31 30 rfl rfl rfl

/-- C6 (amended): for a task in the caller's group, a claim on a
`processed` task fails with the distinguishable already-finished
response, but a claim on an `error` task fails with the same generic
conflict returned for a task held by another member — only the
`processed` terminal state is distinguishable. -/
theorem C6_terminal_claim_responses (img : FamilyImage) (fid mid : String)
    (now L : Int) (hfam : img.family_id = fid) :
    (img.status = .processed →
      (claim_image (some img) fid mid now L).1 = .error .alreadyProcessed) ∧
    (img.status = .error →
      (claim_image (some img) fid mid now L).1 = .error .conflictClaimed) := by
  constructor <;> intro hst
  all_goals
    have hcf : (img.family_id == fid && claimable img (now - L)) = false := by
      rw [Bool.eq_false_iff]
      intro hc
      rcases ((claim_cond_iff img fid now L).mp hc).2 with hp | ⟨hcl, _⟩
      · rw [hst] at hp; simp at hp
      · rw [hst] at hcl; simp at hcl
  all_goals
    simp only [claim_image, hcf, Bool.false_eq_true, if_false]
    rw [show (img.family_id == fid) = true from beq_iff_eq.mpr hfam]
    simp [hst]

/-- C6 counterexample: a claim on a concrete `error`-status task returns
exactly the same conflict value as a claim on a task freshly held by
another member, so the `error` terminal state is not distinguishable as
"already finished" (the claim asserts distinguishability for both
terminal states). -/
theorem C6_counterexample :
    imgError.status = .error ∧
      (claim_image (some imgError) "fam" "bob" 100 30).1 =
        .error .conflictClaimed ∧
      (claim_image (some imgClaimedFresh) "fam" "bob" 100 30).1 =
        .error .conflictClaimed ∧
      ClaimError.conflictClaimed ≠ ClaimError.alreadyProcessed :=
  ⟨rfl, rfl, rfl, by decide⟩

/-- Witness for C6 (amended) at concrete terminal rows. -/
theorem C6_witness :
    (imgProcessed.status = .processed →
      (claim_image (some imgProcessed) "fam" "bob" 100 30).1 =
        .error .alreadyProcessed) ∧
    (imgProcessed.status = .error →
      (claim_image (some imgProcessed) "fam" "bob" 100 30).1 =
        .error .conflictClaimed) :=
  C6_terminal_claim_responses imgProcessed "fam" "bob" 100 30 rfl

theorem release_cond_iff (img : FamilyImage) (fid mid : String) :
    (img.family_id == fid && img.claimed_by == some mid &&
      (img.status == .claimed || img.status == .processing)) = true ↔
      img.family_id = fid ∧ img.claimed_by = some mid ∧
        (img.status = .claimed ∨ img.status = .processing) := by
  simp [Bool.and_eq_true, Bool.or_eq_true, beq_iff_eq, and_assoc]

theorem process_guard_iff (img : FamilyImage) (fid mid : String) :
    (img.family_id == fid && img.claimed_by == some mid &&
      img.status == .claimed) = true ↔
      img.family_id = fid ∧ img.claimed_by = some mid ∧
        img.status = .claimed := by
  simp [Bool.and_eq_true, beq_iff_eq, and_assoc]

/-- C3: for every task whose status is terminal (`processed` or
`error`), every claim, release, or process call, by any member, fails
and leaves the row unchanged (claim returns an error and keeps the row;
release returns 404 and keeps the row; process returns 404, keeps the
row, and creates no audit record). -/
theorem C3_terminal_immutable (img : FamilyImage) (fid mid uid : String)
    (now L : Int) (env : ProcessEnv)
    (h : img.status = .processed ∨ img.status = .error) :
    (∀ img2, (claim_image (some img) fid mid now L).1 ≠ .ok img2) ∧
    (claim_image (some img) fid mid now L).2 = some img ∧
    release_image (some img) fid mid = (.error .notFound, some img) ∧
    (process_image (some img) fid mid uid env).response = .error .notFound ∧
    (process_image (some img) fid mid uid env).row = some img ∧
    (process_image (some img) fid mid uid env).jobs = [] := by
  have hnp : img.status ≠ .pending := by rcases h with h | h <;> simp [h]
  have hnc : img.status ≠ .claimed := by rcases h with h | h <;> simp [h]
  have hcf : (img.family_id == fid && claimable img (now - L)) = false := by
    rw [Bool.eq_false_iff]
    intro hc
    rcases ((claim_cond_iff img fid now L).mp hc).2 with hp | ⟨hcl, _⟩
    · exact hnp hp
    · exact hnc hcl
  obtain ⟨⟨e, he⟩, hsnd⟩ := claim_image_neg img fid mid now L hcf
  have hstb : (img.status == ImageStatus.claimed ||
      img.status == ImageStatus.processing) = false := by
    rcases h with h | h <;> simp [h]
  have hgb : (img.family_id == fid && img.claimed_by == some mid &&
      img.status == ImageStatus.claimed) = false := by
    have h2 : (img.status == ImageStatus.claimed) = false := by
      rcases h with h | h <;> simp [h]
    simp [h2]
  refine ⟨?_, hsnd, ?_, ?_, ?_, ?_⟩
  · intro img2 hok
    rw [he] at hok
    cases hok
  · simp [release_image, hstb]
  · simp [process_image, hgb]
  · simp [process_image, hgb]
  · simp [process_image, hgb]

/-- Witness for C3 at a concrete processed row. -/
theorem C3_witness :
    release_image (some imgProcessed) "fam" "bob" =
      (.error .notFound, some imgProcessed) ∧
    (process_image (some imgProcessed) "fam" "bob" "bob" envOk).jobs = [] :=
  ⟨(C3_terminal_immutable imgProcessed "fam" "bob" "bob" 100 30 envOk
      (Or.inl rfl)).2.2.1,
   (C3_terminal_immutable imgProcessed "fam" "bob" "bob" 100 30 envOk
      (Or.inl rfl)).2.2.2.2.2⟩

/-- C7: for every task and member, release succeeds exactly when the
task is in the caller's group, its status is claimed or processing, and
`claimed_by` equals the caller; on success the status becomes pending
and `claimed_by`/`claimed_at` are cleared; any other release fails with
the not-found error and mutates no field. -/
theorem C7_release_semantics (row : Option FamilyImage) (fid mid : String) :
    (((release_image row fid mid).1 = .ok ()) ↔
      ∃ img, row = some img ∧ img.family_id = fid ∧
        img.claimed_by = some mid ∧
        (img.status = .claimed ∨ img.status = .processing)) ∧
    ∀ img, row = some img →
      ((release_image row fid mid).1 = .ok () →
        (release_image row fid mid).2 =
          some { img with status := .pending, claimed_by := none,
                          claimed_at := none }) ∧
      ((release_image row fid mid).1 ≠ .ok () →
        (release_image row fid mid).1 = .error .notFound ∧
        (release_image row fid mid).2 = some img) := by
  cases row with
  | none =>
    constructor
    · simp [release_image]
    · intro img h0
      cases h0
  | some img =>
    by_cases hc : (img.family_id == fid && img.claimed_by == some mid &&
        (img.status == .claimed || img.status == .processing)) = true
    · constructor
      · simp only [release_image, hc, if_true]
        have h2 := (release_cond_iff img fid mid).mp hc
        constructor
        · intro _
          exact ⟨img, rfl, h2.1, h2.2.1, h2.2.2⟩
        · intro _
          trivial
      · intro img0 h0
        have h1 : img0 = img := by
          injection h0 with h1
          exact h1.symm
        subst h1
        simp only [release_image, hc, if_true]
        constructor
        · intro _
          trivial
        · intro hne
          exact absurd rfl hne
    · have hcf := Bool.eq_false_iff.mpr hc
      constructor
      · simp only [release_image, hcf, Bool.false_eq_true, if_false]
        constructor
        · intro h0
          cases h0
        · rintro ⟨img0, h0, hf, hb, hs⟩
          have h1 : img0 = img := by
            injection h0 with h1
            exact h1.symm
          subst h1
          exact absurd ((release_cond_iff img0 fid mid).mpr ⟨hf, hb, hs⟩) hc
      · intro img0 h0
        have h1 : img0 = img := by
          injection h0 with h1
          exact h1.symm
        subst h1
        simp only [release_image, hcf, Bool.false_eq_true, if_false]
        constructor
        · intro h2
          cases h2
        · intro _
          exact ⟨by trivial, by trivial⟩

/-- Witness for C7: the holder of a concrete claimed row releases it. -/
theorem C7_witness :
    (release_image (some imgClaimedBob) "fam" "bob").1 = .ok () :=
  (C7_release_semantics (some imgClaimedBob) "fam" "bob").1.mpr
    ⟨imgClaimedBob, rfl, rfl, rfl, Or.inl rfl⟩

/-- C4 (amended): for a task claimed by the caller, once the
rate-limit check passes, every error inside the `try` block after the
`processing` transition — missing blob, extractor failure, internal
exception — is caught and the task reaches a terminal state
(`processed` or `error`); a rate-limit denial, however, occurs after
the `processing` transition but outside the handler, propagates to the
caller, and leaves the task in `processing` with nothing recorded. -/
theorem C4_errors_reach_terminal (img : FamilyImage) (fid mid uid : String)
    (env : ProcessEnv) (hfam : img.family_id = fid)
    (hcb : img.claimed_by = some mid) (hst : img.status = .claimed)
    (hrl : env.rate_limited = false) :
    ∃ img2, (process_image (some img) fid mid uid env).row = some img2 ∧
      (img2.status = .processed ∨ img2.status = .error) := by
  have hg : (img.family_id == fid && img.claimed_by == some mid &&
      img.status == ImageStatus.claimed) = true :=
    (process_guard_iff img fid mid).mpr ⟨hfam, hcb, hst⟩
  simp only [process_image, hg, if_true, hrl, Bool.false_eq_true, if_false]
  cases hb : env.blob_exists with
  | false =>
    simp only [hb, Bool.not_false, if_true]
    exact ⟨_, rfl, Or.inr rfl⟩
  | true =>
    simp only [hb, Bool.not_true, Bool.false_eq_true, if_false]
    cases env.extractor with
    | failure err => exact ⟨_, rfl, Or.inr rfl⟩
    | success readings => exact ⟨_, rfl, Or.inl rfl⟩
    | raiseExc msg => exact ⟨_, rfl, Or.inr rfl⟩

/-- C4 counterexample: with the rate limiter denying the call on a
concrete claimed task, the 429 error propagates, the task is left in
`processing`, and no audit record is created — where the claim states
that every error after the `processing` transition is caught and
recorded as a terminal state plus an audit record. -/
theorem C4_counterexample :
    (process_image (some imgClaimedBob) "fam" "bob" "bob"
        envRateLimited).response = .error .rateLimited ∧
    (process_image (some imgClaimedBob) "fam" "bob" "bob"
        envRateLimited).row =
      some { imgClaimedBob with status := .processing } ∧
    (process_image (some imgClaimedBob) "fam" "bob" "bob"
        envRateLimited).jobs = [] :=
  ⟨rfl, rfl, rfl⟩

/-- Witness for C4 (amended) at a concrete claimed task with all
collaborators behaving. -/
theorem C4_witness :
    ∃ img2, (process_image (some imgClaimedBob) "fam" "bob" "bob"
        envOk).row = some img2 ∧
      (img2.status = .processed ∨ img2.status = .error) :=
  C4_errors_reach_terminal imgClaimedBob "fam" "bob" "bob" envOk
    rfl rfl rfl rfl

/-- C5 (amended): for a task claimed by the caller, on every process
call where the rate limiter allows the call and the blob is present,
the terminal transition carries exactly one audit record with matching
outcome (`processed` with a `completed` job, `error` with a `failed`
job), written in the same commit; a transition to `error` for a missing
blob, however, produces no audit record (the job row is created only
after the blob read). -/
theorem C5_audit_pairing (img : FamilyImage) (fid mid uid : String)
    (env : ProcessEnv) (hfam : img.family_id = fid)
    (hcb : img.claimed_by = some mid) (hst : img.status = .claimed)
    (hrl : env.rate_limited = false) (hblob : env.blob_exists = true) :
    ∃ img2 job,
      (process_image (some img) fid mid uid env).row = some img2 ∧
      (process_image (some img) fid mid uid env).jobs = [job] ∧
      ((img2.status = .processed ∧ job.status = .completed) ∨
        (img2.status = .error ∧ job.status = .failed)) := by
  have hg : (img.family_id == fid && img.claimed_by == some mid &&
      img.status == ImageStatus.claimed) = true :=
    (process_guard_iff img fid mid).mpr ⟨hfam, hcb, hst⟩
  simp only [process_image, hg, if_true, hrl, Bool.false_eq_true, if_false,
    hblob, Bool.not_true]
  cases env.extractor with
  | failure err => exact ⟨_, _, rfl, rfl, Or.inr ⟨rfl, rfl⟩⟩
  | success readings => exact ⟨_, _, rfl, rfl, Or.inl ⟨rfl, rfl⟩⟩
  | raiseExc msg => exact ⟨_, _, rfl, rfl, Or.inr ⟨rfl, rfl⟩⟩

/-- C5 counterexample: on a concrete claimed task whose blob is missing
from storage, the process call transitions the task into `error` with
ZERO audit records — where the claim states that every transition into
`processed` or `error`, in particular the missing-blob error, has
exactly one corresponding audit record. -/
theorem C5_counterexample :
    ∃ img2, (process_image (some imgClaimedBob) "fam" "bob" "bob"
        envBlobMissing).row = some img2 ∧
      img2.status = .error ∧
      (process_image (some imgClaimedBob) "fam" "bob" "bob"
        envBlobMissing).jobs = [] :=
  ⟨_, rfl, rfl, rfl⟩

/-- Witness for C5 (amended) at a concrete claimed task whose extractor
succeeds. -/
theorem C5_witness :
    ∃ img2 job,
      (process_image (some imgClaimedBob) "fam" "bob" "bob" envOk).row =
        some img2 ∧
      (process_image (some imgClaimedBob) "fam" "bob" "bob" envOk).jobs =
        [job] ∧
      ((img2.status = .processed ∧ job.status = .completed) ∨
        (img2.status = .error ∧ job.status = .failed)) :=
  C5_audit_pairing imgClaimedBob "fam" "bob" "bob" envOk rfl rfl rfl rfl rfl

/-- C10 (implicit): process performs no lease-expiry check — for every
task with status claimed and holder equal to the caller, the process
call passes the guard (never the not-found conflict) and performs the
`processing` transition, for every `claimed_at` and every current time,
however much time has elapsed; expiry is enforced only at claim time. -/
theorem C10_process_no_expiry (img : FamilyImage) (fid mid uid : String)
    (env : ProcessEnv) (hfam : img.family_id = fid)
    (hcb : img.claimed_by = some mid) (hst : img.status = .claimed) :
    (process_image (some img) fid mid uid env).response ≠
      .error .notFound ∧
    ∃ img2, (process_image (some img) fid mid uid env).row = some img2 ∧
      (img2.status = .processing ∨ img2.status = .processed ∨
        img2.status = .error) := by
  have hg : (img.family_id == fid && img.claimed_by == some mid &&
      img.status == ImageStatus.claimed) = true :=
    (process_guard_iff img fid mid).mpr ⟨hfam, hcb, hst⟩
  simp only [process_image, hg, if_true]
  cases hr : env.rate_limited with
  | true =>
    simp only [hr, if_true]
    exact ⟨by simp, _, rfl, Or.inl rfl⟩
  | false =>
    simp only [hr, Bool.false_eq_true, if_false]
    cases hb : env.blob_exists with
    | false =>
      simp only [hb, Bool.not_false, if_true]
      exact ⟨by simp, _, rfl, Or.inr (Or.inr rfl)⟩
    | true =>
      simp only [hb, Bool.not_true, Bool.false_eq_true, if_false]
      cases env.extractor with
      | failure err => exact ⟨by simp, _, rfl, Or.inr (Or.inr rfl)⟩
      | success readings => exact ⟨by simp, _, rfl, Or.inr (Or.inl rfl)⟩
      | raiseExc msg => exact ⟨by simp, _, rfl, Or.inr (Or.inr rfl)⟩

/-- Stale-lease environment: the current time is far past the lease
window of any of the concrete claimed rows. -/
def envLate : ProcessEnv := { envOk with now := 1000000 }

/-- Witness for C10: the holder processes a task claimed at time 0 when
the current time is 1000000, far past the 30-minute lease, and still
passes the guard. -/
theorem C10_witness :
    (process_image (some imgClaimedAt0) "fam" "alice" "alice"
        envLate).response ≠ .error .notFound ∧
    ∃ img2, (process_image (some imgClaimedAt0) "fam" "alice" "alice"
        envLate).row = some img2 ∧
      (img2.status = .processing ∨ img2.status = .processed ∨
        img2.status = .error) :=
  C10_process_no_expiry imgClaimedAt0 "fam" "alice" "alice" envLate
    rfl rfl rfl

theorem admit_item_none_of_save_fail (fid uid : String) (f : UploadItem)
    (h : f.save_ok = false) : admit_item fid uid f = none := by
  simp [admit_item, h]

theorem admit_item_some_inv (fid uid : String) (f : UploadItem)
    (img : FamilyImage) (h : admit_item fid uid f = some img) :
    img.id = f.id ∧ f.save_ok = true ∧ img.storage_path = f.saved_path ∧
      img.status = .pending := by
  unfold admit_item at h
  split at h
  · cases h
  · split at h
    · cases h
    · split at h
      · cases h
      · injection h with h2
        subst h2
        refine ⟨rfl, ?_, rfl, rfl⟩
        rename_i h3
        simpa using h3

/-- An upload item accepted and saved. -/
def fileGood : UploadItem :=
  { filename := "a.jpg", content_type := "image/jpeg", size := 100,
    id := "id1", save_ok := true, saved_path := "/data/fam/id1" }

/-- An upload item whose blob save fails. -/
def fileBad : UploadItem :=
  { filename := "b.png", content_type := "image/png", size := 200,
    id := "id2", save_ok := false, saved_path := "" }

/-- C8: for every accepted upload batch, each created row stems from an
item whose blob save succeeded and carries the path the storage
collaborator returned, visible in `pending`; an item whose blob save
fails creates no row — no task ever exists without its backing blob. -/
theorem C8_blob_before_row (db : List FamilyImage) (fid uid : String)
    (files : List UploadItem) (maxp : Nat) (created : List FamilyImage)
    (h : (upload_images db fid uid files maxp).1 = .ok created) :
    (∀ img ∈ created, ∃ f ∈ files, img.id = f.id ∧ f.save_ok = true ∧
      img.storage_path = f.saved_path ∧ img.status = .pending) ∧
    (∀ f ∈ files, f.save_ok = false → admit_item fid uid f = none) := by
  refine ⟨?_, fun f _ hf => admit_item_none_of_save_fail fid uid f hf⟩
  by_cases hq : outstanding_count db fid + files.length > maxp
  · rw [upload_images, if_pos hq] at h
    cases h
  · rw [upload_images, if_neg hq] at h
    have h2 : Except.ok (ε := UploadError)
        (files.filterMap (admit_item fid uid)) = .ok created := h
    injection h2 with h3
    intro img hmem
    rw [← h3] at hmem
    obtain ⟨f, hfmem, hadmit⟩ := List.mem_filterMap.mp hmem
    obtain ⟨ha, hb, hc, hd⟩ := admit_item_some_inv fid uid f img hadmit
    exact ⟨f, hfmem, ha, hb, hc, hd⟩

/-- Witness for C8: a concrete two-item batch, one save succeeding and
one failing; the failing item creates no row. -/
theorem C8_witness :
    fileBad.save_ok = false ∧ admit_item "fam" "u1" fileBad = none := by
  refine ⟨rfl, ?_⟩
  exact (C8_blob_before_row [] "fam" "u1" [fileGood, fileBad] 500
    (([fileGood, fileBad]).filterMap (admit_item "fam" "u1")) rfl).2
    fileBad (by simp) rfl

/-- C9: for every upload batch to a group, the whole batch is rejected
with the capacity error and no row is created exactly when the group's
outstanding count (status in pending, claimed, processing) plus the
batch size exceeds the configured per-group ceiling. -/
theorem C9_capacity_check (db : List FamilyImage) (fid uid : String)
    (files : List UploadItem) (maxp : Nat) :
    ((upload_images db fid uid files maxp).1 = .error .tooManyPending ∧
      (upload_images db fid uid files maxp).2 = db) ↔
      outstanding_count db fid + files.length > maxp := by
  by_cases hq : outstanding_count db fid + files.length > maxp
  · simp [upload_images, hq]
  · simp [upload_images, hq]

/-- Witness for C9: a two-file batch against a ceiling of 1 with no
outstanding rows is rejected. -/
theorem C9_witness :
    ((upload_images [] "fam" "u1" [fileGood, fileBad] 1).1 =
        .error .tooManyPending ∧
      (upload_images [] "fam" "u1" [fileGood, fileBad] 1).2 =
        ([] : List FamilyImage)) ↔
      outstanding_count [] "fam" +
        ([fileGood, fileBad] : List UploadItem).length > 1 :=
  C9_capacity_check [] "fam" "u1" [fileGood, fileBad] 1

end SolarTrack
